import Mathlib

/-!
Verification of the buck launcher (`programs/buck_tool.py`) against its
natural-language specification.

The Python source is shallowly embedded here:
  * `CommandLineArgs` mirrors the argument-splitting loop of
    `CommandLineArgs.__init__` and `is_help`;
  * the daemon lifecycle (`kill_buckd`, `_is_buckd_running`, `launch_buckd`,
    `launch_buck` with its busy-retry loop) is embedded as explicit state
    passing over a small filesystem state `FS`, with all external
    collaborators (pynailgun outcomes, `which`, environment variables,
    `buck_project`) supplied through an `Env` record, and with the
    observable actions of a run collected into a trace of events `Ev`;
  * `_get_java_args` and `_truncate_logs_pretty` are embedded as pure
    functions.
-/

/- ### Command line arguments (`CommandLineArgs`) -/

/-- The source's flag test `arg[:1] == "-"`. -/
def isFlagToken (arg : String) : Bool := arg.take 1 = "-"

/-- Result of the argument-splitting loop of `CommandLineArgs.__init__`. -/
structure CommandLineArgs where
  buck_options : List String
  command : Option String
  command_options : List String
  deriving DecidableEq

/-- One iteration of the `for arg in self.args` loop. -/
def parseStep (st : CommandLineArgs) (arg : String) : CommandLineArgs :=
  match st.command with
  | some _ => { st with command_options := st.command_options ++ [arg] }
  | none =>
    if isFlagToken arg then { st with buck_options := st.buck_options ++ [arg] }
    else { st with command := some arg }

/-- `CommandLineArgs.__init__`: drop the program name (`cmdline[1:]`) and run
the splitting loop. -/
def CommandLineArgs.ofCmdline (cmdline : List String) : CommandLineArgs :=
  List.foldl parseStep ⟨[], none, []⟩ (cmdline.drop 1)

/-- `CommandLineArgs.is_help`:
`self.command is None or "--help" in self.command_options`. -/
def CommandLineArgs.is_help (cl : CommandLineArgs) : Bool :=
  cl.command.isNone || cl.command_options.contains "--help"

/- ### Log truncation (`BuckTool._truncate_logs_pretty`) -/

def NUMBER_OF_LINES_BEFORE : Nat := 100
def NUMBER_OF_LINES_AFTER : Nat := 100

/-- `BuckTool._truncate_logs_pretty`; the Python slice `logs[-n:]` is
`logs.drop (logs.length - n)`. -/
def truncate_logs_pretty (logs : List String) : List String :=
  if logs.length ≤ NUMBER_OF_LINES_BEFORE + NUMBER_OF_LINES_AFTER then logs
  else
    (logs.take NUMBER_OF_LINES_BEFORE ++ ["...<truncated>..."]) ++
      logs.drop (logs.length - NUMBER_OF_LINES_AFTER)

/- ### Parsing lemmas for `CommandLineArgs` -/

theorem foldl_parseStep_some (b : List String) (c : String) (o l) :
    List.foldl parseStep ⟨b, some c, o⟩ l = ⟨b, some c, o ++ l⟩ := by
  induction l generalizing o with
  | nil => simp
  | cons a l ih =>
    rw [List.foldl_cons, show parseStep ⟨b, some c, o⟩ a = ⟨b, some c, o ++ [a]⟩ from rfl, ih]
    simp

theorem foldl_parseStep_none (b o : List String) (l : List String) :
    List.foldl parseStep ⟨b, none, o⟩ l =
      match l.dropWhile isFlagToken with
      | [] => ⟨b ++ l, none, o⟩
      | c :: rest => ⟨b ++ l.takeWhile isFlagToken, some c, o ++ rest⟩ := by
  induction l generalizing b with
  | nil => simp
  | cons a l ih =>
    rw [List.foldl_cons]
    by_cases h : isFlagToken a
    · rw [show parseStep ⟨b, none, o⟩ a = ⟨b ++ [a], none, o⟩ by simp [parseStep, h]]
      rw [ih, List.dropWhile_cons_of_pos h, List.takeWhile_cons_of_pos h]
      cases hd : l.dropWhile isFlagToken <;> simp [List.append_assoc]
    · rw [show parseStep ⟨b, none, o⟩ a = ⟨b, some a, o⟩ by simp [parseStep, h]]
      rw [foldl_parseStep_some, List.dropWhile_cons_of_neg h, List.takeWhile_cons_of_neg h]
      simp

theorem all_iff_dropWhile_nil (p : String → Bool) (l : List String) :
    l.all p = true ↔ l.dropWhile p = [] := by
  rw [List.all_eq_true, List.dropWhile_eq_nil_iff]

theorem ofCmdline_eq (cmdline : List String) :
    CommandLineArgs.ofCmdline cmdline =
      match (cmdline.drop 1).dropWhile isFlagToken with
      | [] => ⟨cmdline.drop 1, none, []⟩
      | c :: rest => ⟨(cmdline.drop 1).takeWhile isFlagToken, some c, rest⟩ := by
  unfold CommandLineArgs.ofCmdline
  rw [foldl_parseStep_none]
  cases hd : (cmdline.drop 1).dropWhile isFlagToken <;> simp

/-- C1: `is_help()` is true iff no command token is present (equivalently,
every token after the program name passes the source's flag test
`arg[:1] == "-"`) or the literal `"--help"` occurs among the
command-specific options, i.e. the tokens strictly after the first
non-flag token; consequently with a command present and no `"--help"`
among the command options, `is_help()` is false. -/
theorem is_help_characterization (cmdline : List String) :
    ((CommandLineArgs.ofCmdline cmdline).is_help = true ↔
      ((cmdline.drop 1).all isFlagToken = true ∨
        "--help" ∈ ((cmdline.drop 1).dropWhile isFlagToken).drop 1))
    ∧ (∀ cmd, (CommandLineArgs.ofCmdline cmdline).command = some cmd →
        "--help" ∉ (CommandLineArgs.ofCmdline cmdline).command_options →
        (CommandLineArgs.ofCmdline cmdline).is_help = false) := by
  rw [ofCmdline_eq, all_iff_dropWhile_nil]
  cases hd : (cmdline.drop 1).dropWhile isFlagToken with
  | nil => simp [CommandLineArgs.is_help]
  | cons c rest => simp [CommandLineArgs.is_help]

/-- C1 witness: on `["buck", "build", "--flag"]` a command is present with no
`"--help"` option, so `is_help` is false; on `["buck", "--version"]` no
command is present, so `is_help` is true. -/
theorem is_help_characterization_witness :
    (CommandLineArgs.ofCmdline ["buck", "build", "--flag"]).is_help = false
    ∧ ((CommandLineArgs.ofCmdline ["buck", "--version"]).is_help = true ↔
        ((["buck", "--version"].drop 1).all isFlagToken = true ∨
          "--help" ∈ ((["buck", "--version"].drop 1).dropWhile isFlagToken).drop 1)) :=
  ⟨(is_help_characterization ["buck", "build", "--flag"]).2 "build" (by decide) (by decide),
    (is_help_characterization ["buck", "--version"]).1⟩

/-- C10: `_truncate_logs_pretty` returns its input unchanged when it has at
most 200 lines; otherwise it returns the first 100 lines, the literal
truncation marker, and the last 100 lines, 201 entries in all; in both
cases the first 100 and last 100 input lines are preserved verbatim. -/
theorem truncate_logs_pretty_spec (logs : List String) :
    (logs.length ≤ 200 → truncate_logs_pretty logs = logs)
    ∧ (200 < logs.length →
        truncate_logs_pretty logs =
          (logs.take 100 ++ ["...<truncated>..."]) ++ logs.drop (logs.length - 100)
        ∧ (truncate_logs_pretty logs).length = 201)
    ∧ (truncate_logs_pretty logs).take 100 = logs.take 100
    ∧ (truncate_logs_pretty logs).drop ((truncate_logs_pretty logs).length - 100) =
        logs.drop (logs.length - 100) := by
  by_cases h : logs.length ≤ 200
  · have ht : truncate_logs_pretty logs = logs := by
      simp [truncate_logs_pretty, NUMBER_OF_LINES_BEFORE, NUMBER_OF_LINES_AFTER, h]
    refine ⟨fun _ => ht, fun hc => absurd hc (by omega), by rw [ht], by rw [ht]⟩
  · have h2 : 200 < logs.length := by omega
    have ht : truncate_logs_pretty logs =
        (logs.take 100 ++ ["...<truncated>..."]) ++ logs.drop (logs.length - 100) := by
      simp [truncate_logs_pretty, NUMBER_OF_LINES_BEFORE, NUMBER_OF_LINES_AFTER, h]
    have hlen : (truncate_logs_pretty logs).length = 201 := by
      rw [ht]
      simp [List.length_append, List.length_take, List.length_drop]
      omega
    have hA : (100 : Nat) ≤ (logs.take 100).length := by
      simp [List.length_take]; omega
    refine ⟨fun hc => absurd hc (by omega), fun _ => ⟨ht, hlen⟩, ?_, ?_⟩
    · rw [ht, List.take_append_of_le_length (le_trans hA (by simp)),
        List.take_append_of_le_length hA, List.take_take]
      simp
    · have hlenA : ((logs.take 100 ++ ["...<truncated>..."]) : List String).length = 201 - 100 := by
        simp [List.length_take]; omega
      rw [hlen, ht, List.drop_left' hlenA]

/-- C10 witness: a 201-line log is truncated to 201 entries of the stated
shape, and a 200-line log is returned unchanged. -/
theorem truncate_logs_pretty_spec_witness :
    (truncate_logs_pretty (List.replicate 201 "x") =
      ((List.replicate 201 "x").take 100 ++ ["...<truncated>..."]) ++
        (List.replicate 201 "x").drop ((List.replicate 201 "x").length - 100)
      ∧ (truncate_logs_pretty (List.replicate 201 "x")).length = 201)
    ∧ truncate_logs_pretty (List.replicate 200 "x") = List.replicate 200 "x" :=
  ⟨(truncate_logs_pretty_spec (List.replicate 201 "x")).2.1 (by rw [List.length_replicate]; omega),
    (truncate_logs_pretty_spec (List.replicate 200 "x")).1 (by rw [List.length_replicate])⟩

/- ### Daemon lifecycle model

External collaborators are embedded as data:
  * pynailgun outcomes (`NailgunException.code` values that the source
    compares against) become the enumeration `NgErr`; a successful
    protocol call is `none`, a raised `NailgunException` is `some e`;
  * the `buck_project` object's socket path and version-stamp file become
    the filesystem state `FS`;
  * environment variables, `which`, process-spawn behaviour and the
    daemon's replies become the `Env` record.
Each embedded function returns its result together with the updated `FS`
and a trace of observable events (`Ev`); a raised Python exception is an
`Except.error`. -/

/-- `errno.ENOENT`. -/
def ENOENT : Nat := 2

/-- The `NailgunException.code` values named by the source, plus `other`
for every remaining code. -/
inductive NgErr
  | connectFailed
  | connectionBroken
  | unexpectedChunktype
  | other
  deriving DecidableEq

/-- Exceptions the embedded functions can raise. -/
inductive Err
  | buckTool (msg : String)
  | nailgun (e : NgErr)
  | osError (e : Nat)
  deriving DecidableEq

/-- A `BUCK_BUILD_ID` value: either the caller-supplied id passed to
`launch_buck`, or the `n`-th fresh `uuid.uuid4()` minted in the busy-retry
loop (fresh ids are random, hence pairwise distinct and distinct from the
given one). -/
inductive BuildId
  | given (s : String)
  | fresh (n : Nat)
  deriving DecidableEq

/-- Observable events of a run. -/
inductive Ev
  /-- `kill_buckd`: a NailgunConnection is opened and `ng-stop` sent. -/
  | shutdownRequest
  /-- `buck_project.clean_up_buckd()` ran: socket and stamp removed. -/
  | cleanUpBuckd
  /-- `_is_buckd_running`: a NailgunConnection is opened and `ng-stats` sent. -/
  | statusProbe
  /-- `launch_buckd`: `os.unlink` on the stale socket path. -/
  | unlinkStaleSocket
  /-- `launch_buckd`: `subprocess.Popen` of the daemon. -/
  | spawnDaemon
  /-- `buck_project.save_buckd_version(v)` ran. -/
  | saveVersion (v : String)
  /-- `launch_buckd`: the non-blocking `process.poll()` exit check. -/
  | pollExitCheck
  /-- Busy-retry loop: one NailgunConnection opened and the command sent
  with `BUCK_BUILD_ID = bid`, returning exit code `code`. -/
  | attemptEv (bid : BuildId) (code : Int)
  /-- Busy-retry loop: `BUCK_BUILD_ID` set to a fresh `uuid.uuid4()`. -/
  | mintId (b : BuildId)
  /-- Rate-limited `Daemon is busy` diagnostic printed. -/
  | printBusy
  /-- `time.sleep(1)` after a busy reply. -/
  | sleepOneSec
  /-- Direct (non-daemon) `subprocess.call` of the build tool. -/
  | subprocessCall
  deriving DecidableEq

/-- Filesystem state shared with the daemon: the socket path's existence
and the contents of the version-stamp file. -/
structure FS where
  socketExists : Bool
  savedVersion : Option String
  deriving DecidableEq

/-- External-world parameters of one `launch_buck` run. -/
structure Env where
  /-- `sys.argv`. -/
  argv : List String
  /-- `os.environ.get('NO_BUCKD')` is truthy. -/
  no_buckd : Bool
  /-- `which('watchman')` found a watchman binary. -/
  watchman : Bool
  /-- `which('java')` found a java binary. -/
  java : Bool
  /-- `_get_buck_version_uid()`. -/
  versionUid : String
  /-- Outcome of the `ng-stop` exchange in `kill_buckd` (when the socket
  exists): `none` is success, `some e` a raised `NailgunException`. -/
  stopResult : Option NgErr
  /-- Outcome of the `ng-stats` probe in `_is_buckd_running` (when the
  socket exists). -/
  statsResult : Option NgErr
  /-- Errno raised by `os.unlink` on an existing socket path
  (`none` = removal succeeded). -/
  unlinkResult : Option Nat
  /-- Whether the spawned daemon has created its socket by the end of the
  bounded wait loop. -/
  socketAfterSpawn : Bool
  /-- `process.poll()` after the wait: `some c` = already exited with `c`. -/
  pollResult : Option Int
  /-- Exit codes the daemon returns on successive busy-retry attempts. -/
  responses : List Int
  /-- Wall-clock seconds at the `k`-th busy handling (`time.time()`). -/
  busyTimes : Nat → Nat
  /-- Exit code of the direct `subprocess.call` path. -/
  subprocessExit : Int

/-- Modelled from the spec: `buck_project.clean_up_buckd()` tears the
daemon handle down — "files removed, socket unlinked" (the buck_project
collaborator is not under src/). -/
def clean_up_buckd (_fs : FS) : FS :=
  { socketExists := false, savedVersion := none }

/-- Modelled from the spec: `buck_project.get_running_buckd_version()`
"reads the version-stamp file; absence or unreadable file is treated as
unknown" (the buck_project collaborator is not under src/). -/
def get_running_buckd_version (fs : FS) : Option String :=
  fs.savedVersion

/-- Modelled from the spec: `buck_project.save_buckd_version(v)` persists
the identity fingerprint to the version-stamp file (the buck_project
collaborator is not under src/). -/
def save_buckd_version (fs : FS) (v : String) : FS :=
  { fs with savedVersion := some v }

/-- `BuckTool.kill_buckd`: if the socket exists, send `ng-stop`,
tolerating `CONNECT_FAILED`, `CONNECTION_BROKEN` and
`UNEXPECTED_CHUNKTYPE` and re-raising anything else as a
`BuckToolException`; then `clean_up_buckd()`. -/
def kill_buckd (env : Env) (fs : FS) : Except Err Unit × FS × List Ev :=
  if fs.socketExists then
    match env.stopResult with
    | none => (.ok (), clean_up_buckd fs, [.shutdownRequest, .cleanUpBuckd])
    | some e =>
      if e = .connectFailed ∨ e = .connectionBroken ∨ e = .unexpectedChunktype then
        (.ok (), clean_up_buckd fs, [.shutdownRequest, .cleanUpBuckd])
      else
        (.error (.buckTool "Unexpected error shutting down nailgun server"), fs,
          [.shutdownRequest])
  else
    (.ok (), clean_up_buckd fs, [.cleanUpBuckd])

/-- `BuckTool._is_buckd_running`: false if the socket path does not exist;
otherwise probe with `ng-stats`, returning false on `CONNECT_FAILED`,
re-raising any other `NailgunException`, and true on success. -/
def is_buckd_running (env : Env) (fs : FS) : Except Err Bool × List Ev :=
  if fs.socketExists then
    match env.statsResult with
    | none => (.ok true, [.statusProbe])
    | some e =>
      if e = .connectFailed then (.ok false, [.statusProbe])
      else (.error (.nailgun e), [.statusProbe])
  else
    (.ok false, [])

/-- Outcome of `os.unlink(buck_socket_path)` in `launch_buckd`: unlinking
an absent path raises `ENOENT`; on an existing path the environment
decides. -/
def unlinkOutcome (env : Env) (fs : FS) : Option Nat :=
  if fs.socketExists then env.unlinkResult else some ENOENT

/-- Tail of `launch_buckd` after the stale socket was handled: spawn the
daemon, persist the version stamp, wait for the socket, then do the
non-blocking exit check — `poll()` reporting an exit code `c` makes
`launch_buckd` return `c`, otherwise it returns 0. -/
def launchSpawnPhase (env : Env) (fs : FS) (buck_version_uid : String) (t : List Ev) :
    Except Err Int × FS × List Ev :=
  let fs1 : FS := { fs with socketExists := env.socketAfterSpawn }
  (.ok (env.pollResult.getD 0), save_buckd_version fs1 buck_version_uid,
    t ++ [.spawnDaemon, .saveVersion buck_version_uid, .pollExitCheck])

/-- `BuckTool.launch_buckd`: require watchman (`_setup_watchman_watch`
raises a `BuckToolException` otherwise), remove the stale socket
(tolerating only `ENOENT`), then spawn/stamp/wait/poll. -/
def launch_buckd (env : Env) (fs : FS) (buck_version_uid : String) :
    Except Err Int × FS × List Ev :=
  if env.watchman then
    match unlinkOutcome env fs with
    | none =>
      launchSpawnPhase env { fs with socketExists := false } buck_version_uid
        [.unlinkStaleSocket]
    | some e =>
      if e = ENOENT then launchSpawnPhase env fs buck_version_uid [.unlinkStaleSocket]
      else (.error (.osError e), fs, [.unlinkStaleSocket])
  else
    (.error (.buckTool "Watchman not found, please install when using buckd."), fs, [])

/-- The busy-retry loop of `launch_buck` (`while exit_code == 2`), run over
the daemon's successive replies: each iteration opens a fresh connection
and sends the command; a busy reply (the reserved code 2) mints a fresh
`BUCK_BUILD_ID`, prints the rate-limited diagnostic when more than
`DAEMON_BUSY_MESSAGE_SECONDS` (1s) passed since the last one, and sleeps
1 second before retrying.  `none` means the modelled reply list ran out
while the daemon was still busy. -/
def sendLoop (now : Nat → Nat) : BuildId → Nat → Nat → List Int → Option Int × List Ev
  | _, _, _, [] => (none, [])
  | bid, k, lastDiag, c :: rest =>
    if c = 2 then
      let printed := lastDiag + 1 < now k
      let next := sendLoop now (.fresh k) (k + 1) (if printed then now k else lastDiag) rest
      (next.1, .attemptEv bid c :: .mintId (.fresh k) ::
        ((if printed then [Ev.printBusy] else []) ++ .sleepOneSec :: next.2))
    else
      (some c, [.attemptEv bid c])

/-- The `clean` pre-kill at the top of `launch_buck`:
`if command == "clean" and not is_help(): kill_buckd()`. -/
def cleanPhase (env : Env) (cl : CommandLineArgs) (fs : FS) :
    Except Err Unit × FS × List Ev :=
  if cl.command = some "clean" ∧ cl.is_help = false then kill_buckd env fs
  else (.ok (), fs, [])

/-- The daemon-orchestration block of `launch_buck` (non-help invocations
with buckd enabled and watchman present): kill on version mismatch, then
launch if no daemon is running.  The other branches only print a
rationale. -/
def orchPhase (env : Env) (cl : CommandLineArgs) (buck_version_uid : String) (fs : FS) :
    Except Err Unit × FS × List Ev :=
  if cl.is_help then (.ok (), fs, [])
  else if env.no_buckd = false ∧ env.watchman then
    match
      (if get_running_buckd_version fs ≠ some buck_version_uid then kill_buckd env fs
       else (.ok (), fs, [])) with
    | (.error e, fs1, t1) => (.error e, fs1, t1)
    | (.ok _, fs1, t1) =>
      match is_buckd_running env fs1 with
      | (.error e, t2) => (.error e, fs1, t1 ++ t2)
      | (.ok b, t2) =>
        if b then (.ok (), fs1, t1 ++ t2)
        else
          match launch_buckd env fs1 buck_version_uid with
          | (.error e, fs2, t3) => (.error e, fs2, t1 ++ t2 ++ t3)
          | (.ok _, fs2, t3) => (.ok (), fs2, t1 ++ t2 ++ t3)
  else (.ok (), fs, [])

/-- The direct-execution tail of `launch_buck`: require java on `$PATH`
(else `BuckToolException`), then run the build tool as a short-lived
subprocess. -/
def directRun (env : Env) (fs : FS) (t : List Ev) :
    Except Err (Option Int) × FS × List Ev :=
  if env.java then (.ok (some env.subprocessExit), fs, t ++ [.subprocessCall])
  else (.error (.buckTool "Could not find java on $PATH"), fs, t)

/-- The connection decision at the bottom of `launch_buck`:
`if use_buckd and self._is_buckd_running() and os.path.exists(...)` — note
the short-circuit: with `NO_BUCKD` set no probe happens, and the probe's
exceptions propagate.  On the daemon path the busy-retry loop runs with
the caller-supplied build id first; otherwise the direct subprocess path
is taken. -/
def connectPhase (env : Env) (build_id : String) (fs : FS) :
    Except Err (Option Int) × FS × List Ev :=
  if env.no_buckd then directRun env fs []
  else
    match is_buckd_running env fs with
    | (.error e, t) => (.error e, fs, t)
    | (.ok b, t) =>
      if b ∧ fs.socketExists then
        let res := sendLoop env.busyTimes (.given build_id) 0 0 env.responses
        (match res.1 with
         | some code => .ok (some code)
         | none => .ok none, fs, t ++ res.2)
      else directRun env fs t

/-- `BuckTool.launch_buck`: clean pre-kill, daemon orchestration, then the
connection decision; a raised exception aborts the rest.  The result is
`ok (some c)` for a run returning exit code `c`, `ok none` when the
busy-retry loop outlives the modelled reply list. -/
def launch_buck (env : Env) (build_id : String) (fs : FS) :
    Except Err (Option Int) × FS × List Ev :=
  let cl := CommandLineArgs.ofCmdline env.argv
  match cleanPhase env cl fs with
  | (.error e, fs1, t1) => (.error e, fs1, t1)
  | (.ok _, fs1, t1) =>
    match orchPhase env cl env.versionUid fs1 with
    | (.error e, fs2, t2) => (.error e, fs2, t1 ++ t2)
    | (.ok _, fs2, t2) =>
      let res := connectPhase env build_id fs2
      (res.1, res.2.1, t1 ++ t2 ++ res.2.2)

/- ### Lifecycle lemmas and claims C4-C7 -/

theorem kill_buckd_ok (env : Env) (fs : FS) (h : env.stopResult ≠ some NgErr.other) :
    kill_buckd env fs =
      (.ok (), ⟨false, none⟩,
        (if fs.socketExists then [Ev.shutdownRequest] else []) ++ [Ev.cleanUpBuckd]) := by
  cases hs : fs.socketExists with
  | false => simp [kill_buckd, clean_up_buckd, hs]
  | true =>
    cases hstop : env.stopResult with
    | none => simp [kill_buckd, clean_up_buckd, hs, hstop]
    | some e => cases e <;> simp_all [kill_buckd, clean_up_buckd]

/-- C6: calling `kill_buckd` when the daemon socket file does not exist
returns successfully, raises nothing, and attempts no protocol shutdown
request (nor any other protocol exchange): the run is only the
unconditional `clean_up_buckd()` housekeeping call. -/
theorem kill_buckd_idempotent_no_daemon (env : Env) (fs : FS)
    (h : fs.socketExists = false) :
    (kill_buckd env fs).1 = .ok ()
    ∧ (kill_buckd env fs).2.2 = [Ev.cleanUpBuckd]
    ∧ Ev.shutdownRequest ∉ (kill_buckd env fs).2.2
    ∧ Ev.statusProbe ∉ (kill_buckd env fs).2.2 := by
  simp [kill_buckd, h]

def envC6 : Env :=
  { argv := ["buck", "kill"], no_buckd := false, watchman := true, java := true,
    versionUid := "v1", stopResult := none, statsResult := none, unlinkResult := none,
    socketAfterSpawn := true, pollResult := none, responses := [0],
    busyTimes := fun _ => 10, subprocessExit := 0 }

/-- C6 witness: a concrete world with no socket. -/
theorem kill_buckd_idempotent_no_daemon_witness :
    (kill_buckd envC6 ⟨false, some "v0"⟩).1 = .ok ()
    ∧ (kill_buckd envC6 ⟨false, some "v0"⟩).2.2 = [Ev.cleanUpBuckd]
    ∧ Ev.shutdownRequest ∉ (kill_buckd envC6 ⟨false, some "v0"⟩).2.2
    ∧ Ev.statusProbe ∉ (kill_buckd envC6 ⟨false, some "v0"⟩).2.2 :=
  kill_buckd_idempotent_no_daemon envC6 ⟨false, some "v0"⟩ rfl

/-- C7 (amended): `_is_buckd_running` is false when the socket file does
not exist or when the `ng-stats` probe fails with connection-refused
(`CONNECT_FAILED`); it is true only when the socket exists and the probe
succeeds; but any other `NailgunException` during the probe — including a
malformed/unexpected-frame failure — is re-raised, not treated as "not
running". -/
theorem is_buckd_running_spec (env : Env) (fs : FS) :
    (fs.socketExists = false → (is_buckd_running env fs).1 = .ok false)
    ∧ (fs.socketExists = true → env.statsResult = some .connectFailed →
        (is_buckd_running env fs).1 = .ok false)
    ∧ (fs.socketExists = true → env.statsResult = none →
        (is_buckd_running env fs).1 = .ok true)
    ∧ (∀ e, fs.socketExists = true → env.statsResult = some e → e ≠ .connectFailed →
        (is_buckd_running env fs).1 = .error (.nailgun e)) :=
  ⟨fun h => by simp [is_buckd_running, h],
    fun h h2 => by simp [is_buckd_running, h, h2],
    fun h h2 => by simp [is_buckd_running, h, h2],
    fun e h h2 h3 => by simp [is_buckd_running, h, h2, h3]⟩

def envC7 : Env :=
  { argv := ["buck", "build"], no_buckd := false, watchman := true, java := true,
    versionUid := "v1", stopResult := none, statsResult := some .unexpectedChunktype,
    unlinkResult := none, socketAfterSpawn := true, pollResult := none, responses := [0],
    busyTimes := fun _ => 10, subprocessExit := 0 }

def envC7ok : Env :=
  { envC7 with statsResult := none }

/-- C7 counterexample: with the socket present and the liveness probe
failing with `UNEXPECTED_CHUNKTYPE` (a malformed/unexpected-frame protocol
failure), `_is_buckd_running` re-raises the exception instead of
returning "not running". -/
theorem is_buckd_running_unexpected_frame_propagates :
    (is_buckd_running envC7 ⟨true, some "v1"⟩).1 =
      .error (.nailgun .unexpectedChunktype)
    ∧ (is_buckd_running envC7 ⟨true, some "v1"⟩).1 ≠ .ok false := by
  have h : (is_buckd_running envC7 ⟨true, some "v1"⟩).1 =
      .error (.nailgun .unexpectedChunktype) := rfl
  exact ⟨h, by rw [h]; exact fun hc => Except.noConfusion hc⟩

/-- C7 witness. -/
theorem is_buckd_running_spec_witness :
    (is_buckd_running envC7 ⟨false, some "v1"⟩).1 = .ok false
    ∧ (is_buckd_running envC7ok ⟨true, some "v1"⟩).1 = .ok true :=
  ⟨(is_buckd_running_spec envC7 ⟨false, some "v1"⟩).1 rfl,
    (is_buckd_running_spec envC7ok ⟨true, some "v1"⟩).2.2.1 rfl rfl⟩

/-- C4: in a `launch_buckd` run that passes the watchman gate and the
stale-socket removal, the trace is exactly unlink, spawn, save-version,
poll-check — the version stamp is persisted immediately after the spawn
and strictly before the non-blocking exit check — the stamp holds the
requested version uid, and the return value is the exit code reported by
`poll()` if the process already exited, else 0. -/
theorem launch_buckd_stamp_before_poll (env : Env) (fs : FS) (uid : String)
    (hw : env.watchman = true)
    (hu : unlinkOutcome env fs = none ∨ unlinkOutcome env fs = some ENOENT) :
    (launch_buckd env fs uid).2.2 =
      [Ev.unlinkStaleSocket, Ev.spawnDaemon, Ev.saveVersion uid, Ev.pollExitCheck]
    ∧ (launch_buckd env fs uid).1 =
        .ok (match env.pollResult with | some c => c | none => 0)
    ∧ (launch_buckd env fs uid).2.1.savedVersion = some uid := by
  rcases hu with hu | hu <;>
    simp [launch_buckd, hu, hw, launchSpawnPhase, save_buckd_version] <;>
    cases env.pollResult <;> rfl

def envC4 : Env :=
  { argv := ["buck", "build"], no_buckd := false, watchman := true, java := true,
    versionUid := "v2", stopResult := none, statsResult := none, unlinkResult := none,
    socketAfterSpawn := false, pollResult := some 17, responses := [0],
    busyTimes := fun _ => 10, subprocessExit := 0 }

/-- C4 witness: the spawned daemon exits immediately with code 17;
`launch_buckd` returns 17 and the stamp was written before the check. -/
theorem launch_buckd_stamp_before_poll_witness :
    (launch_buckd envC4 ⟨true, none⟩ "v2").2.2 =
      [Ev.unlinkStaleSocket, Ev.spawnDaemon, Ev.saveVersion "v2", Ev.pollExitCheck]
    ∧ (launch_buckd envC4 ⟨true, none⟩ "v2").1 = .ok 17
    ∧ (launch_buckd envC4 ⟨true, none⟩ "v2").2.1.savedVersion = some "v2" :=
  launch_buckd_stamp_before_poll envC4 ⟨true, none⟩ "v2" rfl (Or.inl rfl)

/-- C5: when removing the stale socket before spawning, an `OSError` with
errno `ENOENT` is silently tolerated and the launch continues (the daemon
is spawned and `launch_buckd` completes normally), while a removal failure
with any other errno is re-raised and aborts the launch before the spawn. -/
theorem launch_buckd_unlink_error_handling (env : Env) (fs : FS) (uid : String)
    (hw : env.watchman = true) :
    (unlinkOutcome env fs = some ENOENT →
      (launch_buckd env fs uid).1 = .ok (env.pollResult.getD 0)
      ∧ Ev.spawnDaemon ∈ (launch_buckd env fs uid).2.2)
    ∧ (∀ e, unlinkOutcome env fs = some e → e ≠ ENOENT →
        launch_buckd env fs uid = (.error (.osError e), fs, [Ev.unlinkStaleSocket])
        ∧ Ev.spawnDaemon ∉ (launch_buckd env fs uid).2.2) := by
  constructor
  · intro hu
    simp [launch_buckd, hu, hw, launchSpawnPhase]
  · intro e hu he
    simp [launch_buckd, hu, hw, he]

def envC5 : Env :=
  { argv := ["buck", "build"], no_buckd := false, watchman := true, java := true,
    versionUid := "v3", stopResult := none, statsResult := none,
    unlinkResult := some 13, socketAfterSpawn := true, pollResult := none,
    responses := [0], busyTimes := fun _ => 10, subprocessExit := 0 }

/-- C5 witness: with no socket present the unlink raises `ENOENT` and the
launch continues; with an existing socket whose unlink raises errno 13
(`EACCES`), the error is re-raised and nothing is spawned. -/
theorem launch_buckd_unlink_error_handling_witness :
    ((launch_buckd envC5 ⟨false, none⟩ "v3").1 = .ok 0
      ∧ Ev.spawnDaemon ∈ (launch_buckd envC5 ⟨false, none⟩ "v3").2.2)
    ∧ (launch_buckd envC5 ⟨true, none⟩ "v3" =
        (.error (.osError 13), ⟨true, none⟩, [Ev.unlinkStaleSocket])
      ∧ Ev.spawnDaemon ∉ (launch_buckd envC5 ⟨true, none⟩ "v3").2.2) :=
  ⟨(launch_buckd_unlink_error_handling envC5 ⟨false, none⟩ "v3" rfl).1 rfl,
    (launch_buckd_unlink_error_handling envC5 ⟨true, none⟩ "v3" rfl).2 13 rfl (by decide)⟩

/- ### C3: version-mismatch kill completes before launch -/

theorem orchPhase_mismatch (env : Env) (cl : CommandLineArgs) (fs : FS)
    (hh : cl.is_help = false) (hnb : env.no_buckd = false) (hw : env.watchman = true)
    (hmis : fs.savedVersion ≠ some env.versionUid)
    (hstop : env.stopResult ≠ some NgErr.other) :
    orchPhase env cl env.versionUid fs =
      (.ok (), ⟨env.socketAfterSpawn, some env.versionUid⟩,
        ((if fs.socketExists then [Ev.shutdownRequest] else []) ++ [Ev.cleanUpBuckd]) ++
          [Ev.unlinkStaleSocket, Ev.spawnDaemon, Ev.saveVersion env.versionUid,
            Ev.pollExitCheck]) := by
  rw [orchPhase, hh]
  simp only [Bool.false_eq_true, if_false, hnb, hw, and_self, if_true,
    get_running_buckd_version, hmis, ne_eq, not_false_iff, ite_true,
    kill_buckd_ok env fs hstop]
  simp [is_buckd_running, launch_buckd, unlinkOutcome, ENOENT, hw,
    launchSpawnPhase, save_buckd_version]

/-- C3: in a non-help invocation with daemon usage enabled, watchman
present and the recorded daemon version differing from the current
fingerprint (either already on entry, or because a `clean` pre-kill wiped
the stamp), `kill_buckd` runs to completion — the trace contains its
terminal `clean_up_buckd` socket removal — strictly before
`launch_buckd`'s socket-unlink step appears in the trace.  (The
hypothesis on `stopResult` says the `ng-stop` exchange did not raise one
of the non-tolerated Nailgun errors, i.e. the kill is able to complete.) -/
theorem mismatch_kill_completes_before_launch_unlink (env : Env) (fs : FS)
    (build_id : String)
    (hh : (CommandLineArgs.ofCmdline env.argv).is_help = false)
    (hnb : env.no_buckd = false) (hw : env.watchman = true)
    (hmis : fs.savedVersion ≠ some env.versionUid ∨
      (CommandLineArgs.ofCmdline env.argv).command = some "clean")
    (hstop : env.stopResult ≠ some NgErr.other) :
    ∃ T1 T2, (launch_buck env build_id fs).2.2 = T1 ++ Ev.cleanUpBuckd :: T2
      ∧ Ev.unlinkStaleSocket ∈ T2 := by
  have hkill := kill_buckd_ok env fs hstop
  by_cases hc : (CommandLineArgs.ofCmdline env.argv).command = some "clean"
  · have horch := orchPhase_mismatch env (CommandLineArgs.ofCmdline env.argv)
      ⟨false, none⟩ hh hnb hw (by simp) hstop
    refine ⟨(if fs.socketExists then [Ev.shutdownRequest] else []),
      Ev.cleanUpBuckd :: ([Ev.unlinkStaleSocket, Ev.spawnDaemon,
        Ev.saveVersion env.versionUid, Ev.pollExitCheck] ++
        (connectPhase env build_id ⟨env.socketAfterSpawn, some env.versionUid⟩).2.2),
      ?_, by simp⟩
    simp only [launch_buck, cleanPhase, hc, hh, and_self, if_true, hkill, horch]
    simp
  · have hm : fs.savedVersion ≠ some env.versionUid := hmis.resolve_right hc
    have horch := orchPhase_mismatch env (CommandLineArgs.ofCmdline env.argv)
      fs hh hnb hw hm hstop
    refine ⟨(if fs.socketExists then [Ev.shutdownRequest] else []),
      [Ev.unlinkStaleSocket, Ev.spawnDaemon, Ev.saveVersion env.versionUid,
        Ev.pollExitCheck] ++
        (connectPhase env build_id ⟨env.socketAfterSpawn, some env.versionUid⟩).2.2,
      ?_, by simp⟩
    simp only [launch_buck, cleanPhase, hc, hh, false_and, if_false, horch]
    simp

def envC3 : Env :=
  { argv := ["buck", "build"], no_buckd := false, watchman := true, java := true,
    versionUid := "new", stopResult := none, statsResult := none, unlinkResult := none,
    socketAfterSpawn := true, pollResult := none, responses := [0],
    busyTimes := fun _ => 10, subprocessExit := 0 }

/-- C3 witness: a running daemon stamped "old" while the client is "new". -/
theorem mismatch_kill_completes_before_launch_unlink_witness :
    ∃ T1 T2, (launch_buck envC3 "b" ⟨true, some "old"⟩).2.2 =
        T1 ++ Ev.cleanUpBuckd :: T2
      ∧ Ev.unlinkStaleSocket ∈ T2 :=
  mismatch_kill_completes_before_launch_unlink envC3 ⟨true, some "old"⟩ "b"
    (by decide) rfl rfl (Or.inl (by decide)) (by decide)

/- ### C2: the busy-retry loop -/

/-- Project an event to its connection attempt, if it is one. -/
def evAttempt : Ev → Option (BuildId × Int)
  | .attemptEv b c => some (b, c)
  | _ => none

/-- Project an event to the freshly minted build id, if it is a mint. -/
def evMint : Ev → Option BuildId
  | .mintId b => some b
  | _ => none

theorem sendLoop_cons_busy (now : Nat → Nat) (bid : BuildId) (k lastDiag : Nat)
    (rest : List Int) :
    sendLoop now bid k lastDiag ((2 : Int) :: rest) =
      ((sendLoop now (.fresh k) (k + 1)
          (if lastDiag + 1 < now k then now k else lastDiag) rest).1,
        .attemptEv bid 2 :: .mintId (.fresh k) ::
          ((if lastDiag + 1 < now k then [Ev.printBusy] else []) ++
            .sleepOneSec :: (sendLoop now (.fresh k) (k + 1)
              (if lastDiag + 1 < now k then now k else lastDiag) rest).2)) := by
  simp [sendLoop]

theorem sendLoop_cons_done (now : Nat → Nat) (bid : BuildId) (k lastDiag : Nat)
    (c : Int) (hc : c ≠ 2) (rest : List Int) :
    sendLoop now bid k lastDiag (c :: rest) = (some c, [.attemptEv bid c]) := by
  simp [sendLoop, hc]

theorem sendLoop_busy_then_exit (now : Nat → Nat) (c : Int) (hc : c ≠ 2) :
    ∀ (N : Nat) (bid : BuildId) (k lastDiag : Nat),
      (sendLoop now bid k lastDiag (List.replicate N 2 ++ [c])).1 = some c
      ∧ (sendLoop now bid k lastDiag (List.replicate N 2 ++ [c])).2.filterMap evAttempt =
          List.zip (bid :: (List.range' k N).map BuildId.fresh)
            (List.replicate N 2 ++ [c])
      ∧ (sendLoop now bid k lastDiag (List.replicate N 2 ++ [c])).2.filterMap evMint =
          (List.range' k N).map BuildId.fresh
      ∧ (sendLoop now bid k lastDiag (List.replicate N 2 ++ [c])).2.count Ev.sleepOneSec
          = N := by
  intro N
  induction N with
  | zero =>
    intro bid k lastDiag
    rw [show List.replicate 0 (2 : Int) ++ [c] = [c] by simp,
      sendLoop_cons_done now bid k lastDiag c hc]
    simp [evAttempt, evMint]
  | succ N ih =>
    intro bid k lastDiag
    rw [show List.replicate (N + 1) (2 : Int) ++ [c] = 2 :: (List.replicate N 2 ++ [c]) by
      simp [List.replicate_succ],
      sendLoop_cons_busy]
    by_cases hp : lastDiag + 1 < now k
    · obtain ⟨ih1, ih2, ih3, ih4⟩ := ih (.fresh k) (k + 1) (now k)
      rw [if_pos hp]
      refine ⟨ih1, ?_, ?_, ?_⟩ <;>
        simp [hp, evAttempt, evMint, List.filterMap_append, List.count_append,
          List.count_cons, ih2, ih3, ih4, List.range'_succ, List.replicate_succ]
    · obtain ⟨ih1, ih2, ih3, ih4⟩ := ih (.fresh k) (k + 1) lastDiag
      rw [if_neg hp]
      refine ⟨ih1, ?_, ?_, ?_⟩ <;>
        simp [hp, evAttempt, evMint, List.filterMap_append, List.count_append,
          List.count_cons, ih2, ih3, ih4, List.range'_succ, List.replicate_succ]

/-- C2: in a `launch_buck` run that reaches the daemon exchange (matching
version, running daemon), if the daemon replies with the reserved busy
code 2 exactly N times and then a non-2 exit code `c`, then the trace
shows exactly N + 1 connections opened (the attempts), the first attempt
carrying the caller-supplied build id and each subsequent one a freshly
minted id; exactly N fresh BuildIds are minted after the N busy replies,
pairwise distinct; the loop sleeps 1 second exactly N times; and
`launch_buck` returns `c`. -/
theorem busy_retry_loop_spec (env : Env) (fs : FS) (build_id : String)
    (N : Nat) (c : Int) (hc : c ≠ 2)
    (hresp : env.responses = List.replicate N 2 ++ [c])
    (hh : (CommandLineArgs.ofCmdline env.argv).is_help = false)
    (hclean : (CommandLineArgs.ofCmdline env.argv).command ≠ some "clean")
    (hnb : env.no_buckd = false) (hw : env.watchman = true)
    (hver : fs.savedVersion = some env.versionUid)
    (hsock : fs.socketExists = true)
    (hstats : env.statsResult = none) :
    (launch_buck env build_id fs).1 = .ok (some c)
    ∧ (launch_buck env build_id fs).2.2.filterMap evAttempt =
        List.zip (BuildId.given build_id :: (List.range N).map BuildId.fresh)
          (List.replicate N 2 ++ [c])
    ∧ ((launch_buck env build_id fs).2.2.filterMap evAttempt).length = N + 1
    ∧ (launch_buck env build_id fs).2.2.filterMap evMint =
        (List.range N).map BuildId.fresh
    ∧ ((launch_buck env build_id fs).2.2.filterMap evMint).Nodup
    ∧ (launch_buck env build_id fs).2.2.count Ev.sleepOneSec = N := by
  obtain ⟨h1, h2, h3, h4⟩ :=
    sendLoop_busy_then_exit env.busyTimes c hc N (BuildId.given build_id) 0 0
  have hclean2 : cleanPhase env (CommandLineArgs.ofCmdline env.argv) fs =
      (.ok (), fs, []) := by
    simp [cleanPhase, hclean]
  have horch : orchPhase env (CommandLineArgs.ofCmdline env.argv) env.versionUid fs =
      (.ok (), fs, [Ev.statusProbe]) := by
    rw [orchPhase, hh]
    simp [hnb, hw, get_running_buckd_version, hver, is_buckd_running, hsock, hstats]
  have hloop1 :
      (sendLoop env.busyTimes (BuildId.given build_id) 0 0 env.responses).1 = some c := by
    rw [hresp]; exact h1
  have hconn : connectPhase env build_id fs =
      (.ok (some c), fs, Ev.statusProbe ::
        (sendLoop env.busyTimes (BuildId.given build_id) 0 0 env.responses).2) := by
    simp [connectPhase, hnb, is_buckd_running, hsock, hstats, hloop1]
  have hlb : launch_buck env build_id fs =
      (.ok (some c), fs, Ev.statusProbe :: Ev.statusProbe ::
        (sendLoop env.busyTimes (BuildId.given build_id) 0 0 env.responses).2) := by
    simp [launch_buck, hclean2, horch, hconn]
  have hinj : Function.Injective BuildId.fresh := fun a b h => by injection h
  have hA : (Ev.statusProbe :: Ev.statusProbe ::
      (sendLoop env.busyTimes (BuildId.given build_id) 0 0
        (List.replicate N 2 ++ [c])).2).filterMap evAttempt =
      List.zip (BuildId.given build_id :: (List.range N).map BuildId.fresh)
        (List.replicate N 2 ++ [c]) := by
    rw [List.range_eq_range']
    simpa [evAttempt] using h2
  have hM : (Ev.statusProbe :: Ev.statusProbe ::
      (sendLoop env.busyTimes (BuildId.given build_id) 0 0
        (List.replicate N 2 ++ [c])).2).filterMap evMint =
      (List.range N).map BuildId.fresh := by
    rw [List.range_eq_range']
    simpa [evMint] using h3
  rw [hlb, hresp]
  refine ⟨rfl, hA, ?_, hM, ?_, ?_⟩
  · rw [hA]
    simp [List.length_zip]
  · rw [hM]
    exact (List.nodup_range N).map hinj
  · simpa [List.count_cons] using h4

def envC2 : Env :=
  { argv := ["buck", "build"], no_buckd := false, watchman := true, java := true,
    versionUid := "v5", stopResult := none, statsResult := none, unlinkResult := none,
    socketAfterSpawn := true, pollResult := none, responses := [2, 2, 0],
    busyTimes := fun _ => 10, subprocessExit := 0 }

/-- C2 witness: the daemon is busy twice, then succeeds with exit code 0. -/
theorem busy_retry_loop_spec_witness :
    (launch_buck envC2 "bid0" ⟨true, some "v5"⟩).1 = .ok (some 0)
    ∧ (launch_buck envC2 "bid0" ⟨true, some "v5"⟩).2.2.filterMap evAttempt =
        List.zip (BuildId.given "bid0" :: (List.range 2).map BuildId.fresh)
          (List.replicate 2 2 ++ [0])
    ∧ ((launch_buck envC2 "bid0" ⟨true, some "v5"⟩).2.2.filterMap evAttempt).length = 2 + 1
    ∧ (launch_buck envC2 "bid0" ⟨true, some "v5"⟩).2.2.filterMap evMint =
        (List.range 2).map BuildId.fresh
    ∧ ((launch_buck envC2 "bid0" ⟨true, some "v5"⟩).2.2.filterMap evMint).Nodup
    ∧ (launch_buck envC2 "bid0" ⟨true, some "v5"⟩).2.2.count Ev.sleepOneSec = 2 :=
  busy_retry_loop_spec envC2 ⟨true, some "v5"⟩ "bid0" 2 0 (by decide) rfl (by decide)
    (by decide) rfl rfl rfl rfl rfl

/- ### C8: the help invocation -/

theorem sendLoop_only_loop_events (now : Nat → Nat) :
    ∀ (rs : List Int) (bid : BuildId) (k lastDiag : Nat),
      Ev.cleanUpBuckd ∉ (sendLoop now bid k lastDiag rs).2
      ∧ Ev.shutdownRequest ∉ (sendLoop now bid k lastDiag rs).2
      ∧ Ev.spawnDaemon ∉ (sendLoop now bid k lastDiag rs).2
      ∧ Ev.unlinkStaleSocket ∉ (sendLoop now bid k lastDiag rs).2 := by
  intro rs
  induction rs with
  | nil => intro bid k d; simp [sendLoop]
  | cons c rest ih =>
    intro bid k d
    by_cases h2 : c = 2
    · subst h2
      rw [sendLoop_cons_busy]
      by_cases hp : d + 1 < now k
      · obtain ⟨i1, i2, i3, i4⟩ := ih (.fresh k) (k + 1) (now k)
        simp [hp, i1, i2, i3, i4]
      · obtain ⟨i1, i2, i3, i4⟩ := ih (.fresh k) (k + 1) d
        simp [hp, i1, i2, i3, i4]
    · rw [sendLoop_cons_done now bid k d c h2]
      simp

theorem connectPhase_only_connect_events (env : Env) (bid : String) (fs : FS) :
    Ev.cleanUpBuckd ∉ (connectPhase env bid fs).2.2
    ∧ Ev.shutdownRequest ∉ (connectPhase env bid fs).2.2
    ∧ Ev.spawnDaemon ∉ (connectPhase env bid fs).2.2
    ∧ Ev.unlinkStaleSocket ∉ (connectPhase env bid fs).2.2 := by
  obtain ⟨s1, s2, s3, s4⟩ :=
    sendLoop_only_loop_events env.busyTimes env.responses (.given bid) 0 0
  by_cases hnb : env.no_buckd
  · by_cases hj : env.java <;> simp [connectPhase, hnb, directRun, hj]
  · cases hs : fs.socketExists with
    | false =>
      by_cases hj : env.java <;>
        simp [connectPhase, hnb, is_buckd_running, hs, directRun, hj]
    | true =>
      cases hstat : env.statsResult with
      | none => simp [connectPhase, hnb, is_buckd_running, hs, hstat, s1, s2, s3, s4]
      | some e =>
        by_cases he : e = .connectFailed
        · subst he
          by_cases hj : env.java <;>
            simp [connectPhase, hnb, is_buckd_running, hs, hstat, directRun, hj]
        · simp [connectPhase, hnb, is_buckd_running, hs, hstat, he]

def envC8 : Env :=
  { argv := ["tool", "--help"], no_buckd := false, watchman := true, java := true,
    versionUid := "v", stopResult := none, statsResult := none, unlinkResult := none,
    socketAfterSpawn := true, pollResult := none, responses := [0],
    busyTimes := fun _ => 10, subprocessExit := 7 }

/-- C8 counterexample: for `["tool", "--help"]` with buckd enabled and a
live daemon behind an existing socket, `launch_buck` does make protocol
connection attempts — the `ng-stats` liveness probe followed by the
command exchange over the daemon socket — and does not take the direct
subprocess path, contrary to the claim as stated. -/
theorem help_with_live_daemon_connects :
    (launch_buck envC8 "b" ⟨true, some "v"⟩).2.2 =
      [Ev.statusProbe, Ev.attemptEv (BuildId.given "b") 0]
    ∧ Ev.subprocessCall ∉ (launch_buck envC8 "b" ⟨true, some "v"⟩).2.2 := by
  constructor <;> decide

/-- C8 (amended): for the invocation `["tool", "--help"]`, `launch_buck`
never kills the daemon (no shutdown request, no `clean_up_buckd`) and
never launches one (no spawn, no socket unlink), in every environment;
when additionally the daemon socket file does not exist and java is
available, no protocol connection of any kind is attempted and the direct
subprocess path is taken. -/
theorem help_invocation_no_kill_no_launch (env : Env) (fs : FS) (bid : String)
    (ha : env.argv = ["tool", "--help"]) :
    (Ev.cleanUpBuckd ∉ (launch_buck env bid fs).2.2
      ∧ Ev.shutdownRequest ∉ (launch_buck env bid fs).2.2
      ∧ Ev.spawnDaemon ∉ (launch_buck env bid fs).2.2
      ∧ Ev.unlinkStaleSocket ∉ (launch_buck env bid fs).2.2)
    ∧ (fs.socketExists = false → env.java = true →
        Ev.statusProbe ∉ (launch_buck env bid fs).2.2
        ∧ (launch_buck env bid fs).2.2.filterMap evAttempt = []
        ∧ (launch_buck env bid fs).1 = .ok (some env.subprocessExit)
        ∧ Ev.subprocessCall ∈ (launch_buck env bid fs).2.2) := by
  have hcl : CommandLineArgs.ofCmdline env.argv = ⟨["--help"], none, []⟩ := by
    rw [ha]; decide
  have hclean2 : cleanPhase env (CommandLineArgs.ofCmdline env.argv) fs =
      (.ok (), fs, []) := by
    rw [hcl]; simp [cleanPhase]
  have horch : orchPhase env (CommandLineArgs.ofCmdline env.argv) env.versionUid fs =
      (.ok (), fs, []) := by
    rw [hcl]; simp [orchPhase, CommandLineArgs.is_help]
  have hlb : launch_buck env bid fs = connectPhase env bid fs := by
    simp [launch_buck, hclean2, horch]
  constructor
  · rw [hlb]
    exact connectPhase_only_connect_events env bid fs
  · intro hs hj
    rw [hlb]
    by_cases hnb : env.no_buckd <;>
      simp [connectPhase, hnb, is_buckd_running, hs, directRun, hj, evAttempt]

/-- C8 witness for the amended statement: help invocation, no socket. -/
theorem help_invocation_no_kill_no_launch_witness :
    Ev.cleanUpBuckd ∉ (launch_buck envC8 "b" ⟨false, none⟩).2.2
    ∧ Ev.statusProbe ∉ (launch_buck envC8 "b" ⟨false, none⟩).2.2
    ∧ (launch_buck envC8 "b" ⟨false, none⟩).1 = .ok (some 7)
    ∧ Ev.subprocessCall ∈ (launch_buck envC8 "b" ⟨false, none⟩).2.2 :=
  have h := help_invocation_no_kill_no_launch envC8 ⟨false, none⟩ "b" rfl
  ⟨h.1.1, (h.2 rfl rfl).1, (h.2 rfl rfl).2.2.1, (h.2 rfl rfl).2.2.2⟩

/- ### C9: `_get_java_args` override ordering -/

def JAVA_MAX_HEAP_SIZE_MB : Nat := 1000

/-- A driver resource (`Resource` in the source): logical name, whether it
needs execute permission, required basename. -/
structure Resource where
  name : String
  executable : Bool
  basename : String
  deriving DecidableEq

/-- `Resource(name)` with the source's defaults. -/
def mkResource (name : String) : Resource := ⟨name, false, name⟩

/-- `EXPORTED_RESOURCES`: the fixed resource catalog propagated to buck
via system properties. -/
def EXPORTED_RESOURCES : List Resource :=
  [mkResource "testrunner_classes",
   mkResource "abi_processor_classes",
   mkResource "path_to_asm_jar",
   mkResource "logging_config_file",
   ⟨"path_to_rawmanifest_py", false, "rawmanifest.py"⟩,
   ⟨"path_to_pathlib_py", false, "pathlib.py"⟩,
   mkResource "path_to_intellij_py",
   mkResource "path_to_pex",
   mkResource "path_to_pywatchman",
   mkResource "path_to_typing",
   mkResource "path_to_sh_binary_template",
   mkResource "jacoco_agent_jar",
   mkResource "report_generator_jar",
   mkResource "path_to_static_content",
   ⟨"path_to_pex", true, "path_to_pex"⟩,
   mkResource "dx",
   mkResource "android_agent_path",
   mkResource "buck_build_type_info",
   mkResource "native_exopackage_fake_path"]

/-- External inputs of `_get_java_args`: the resource provider and lock
path, the platform and environment-variable switches, the two
buck_project override strings (Python-falsy when empty), the subclass's
`_get_extra_java_args`, the `BUCK_EXTRA_JAVA_ARGS` variable, and the
`shlex.split` / `os.path.dirname` collaborators. -/
structure JavaCfg where
  resourceLockPath : Option String
  hasResource : Resource → Bool
  getResource : Resource → String
  dirname : String → String
  isDarwin : Bool
  debugMode : Bool
  debugSoy : Bool
  buckJavaargs : String
  buckJavaargsLocal : String
  extraJavaArgs : List String
  extraJavaArgsEnvVar : String
  buckdDir : String
  tokenize : String → List String

/-- `BuckTool._get_java_args`; the successive appends mirror the source. -/
def get_java_args (cfg : JavaCfg) (version_uid : String)
    (extra_default_options : List String) : List String :=
  let java_args :=
    ["-Xmx" ++ toString JAVA_MAX_HEAP_SIZE_MB ++ "m",
     "-Djava.awt.headless=true",
     "-Djava.util.logging.config.class=com.facebook.buck.cli.bootstrapper.LogConfig",
     "-Dbuck.test_util_no_tests_dir=true",
     "-Dbuck.version_uid=" ++ version_uid,
     "-Dbuck.buckd_dir=" ++ cfg.buckdDir,
     "-Dorg.eclipse.jetty.util.log.class=org.eclipse.jetty.util.log.JavaUtilLog"]
  let java_args := java_args ++
    (match cfg.resourceLockPath with
     | some p => ["-Dbuck.resource_lock_path=" ++ p]
     | none => [])
  let java_args := java_args ++
    EXPORTED_RESOURCES.filterMap (fun r =>
      if cfg.hasResource r then
        some ("-Dbuck." ++ r.name ++ "=" ++ cfg.getResource r)
      else none)
  let java_args := java_args ++
    (if cfg.isDarwin then
      ["-Dbuck.enable_objc=true",
       "-Djava.library.path=" ++
         cfg.dirname (cfg.getResource (mkResource "libjcocoa.dylib"))]
     else [])
  let java_args := java_args ++
    (if cfg.debugMode then
      ["-agentlib:jdwp=transport=dt_socket,server=y,suspend=y,address=8888"]
     else [])
  let java_args := java_args ++ (if cfg.debugSoy then ["-Dbuck.soy.debug=true"] else [])
  let java_args := java_args ++ extra_default_options
  let java_args := java_args ++
    (if cfg.buckJavaargs = "" then [] else cfg.tokenize cfg.buckJavaargs)
  let java_args := java_args ++
    (if cfg.buckJavaargsLocal = "" then [] else cfg.tokenize cfg.buckJavaargsLocal)
  let java_args := java_args ++ cfg.extraJavaArgs
  let java_args := java_args ++
    (if cfg.extraJavaArgsEnvVar = "" then [] else cfg.tokenize cfg.extraJavaArgsEnvVar)
  java_args

/-- The built-in defaults channel of `_get_java_args`: everything the
source appends before the per-call `extra_default_options` (fixed flags,
resource-lock property, resource properties, platform and debug-switch
additions). -/
def javaArgsBuiltin (cfg : JavaCfg) (version_uid : String) : List String :=
  ["-Xmx" ++ toString JAVA_MAX_HEAP_SIZE_MB ++ "m",
   "-Djava.awt.headless=true",
   "-Djava.util.logging.config.class=com.facebook.buck.cli.bootstrapper.LogConfig",
   "-Dbuck.test_util_no_tests_dir=true",
   "-Dbuck.version_uid=" ++ version_uid,
   "-Dbuck.buckd_dir=" ++ cfg.buckdDir,
   "-Dorg.eclipse.jetty.util.log.class=org.eclipse.jetty.util.log.JavaUtilLog"] ++
  (match cfg.resourceLockPath with
   | some p => ["-Dbuck.resource_lock_path=" ++ p]
   | none => []) ++
  EXPORTED_RESOURCES.filterMap (fun r =>
    if cfg.hasResource r then
      some ("-Dbuck." ++ r.name ++ "=" ++ cfg.getResource r)
    else none) ++
  (if cfg.isDarwin then
    ["-Dbuck.enable_objc=true",
     "-Djava.library.path=" ++
       cfg.dirname (cfg.getResource (mkResource "libjcocoa.dylib"))]
   else []) ++
  (if cfg.debugMode then
    ["-agentlib:jdwp=transport=dt_socket,server=y,suspend=y,address=8888"]
   else []) ++
  (if cfg.debugSoy then ["-Dbuck.soy.debug=true"] else [])

/-- C9: in the list produced by `_get_java_args` the override channels
appear in this relative order: built-in defaults first, then the per-call
extra default options, then the tokenized project-level override string,
then the tokenized user-local override string, then the subclass-provided
extra arguments, and finally the tokenized `BUCK_EXTRA_JAVA_ARGS`
environment override, always appended last. -/
theorem get_java_args_override_order (cfg : JavaCfg) (version_uid : String)
    (extra_default_options : List String) :
    get_java_args cfg version_uid extra_default_options =
      javaArgsBuiltin cfg version_uid ++ extra_default_options ++
      (if cfg.buckJavaargs = "" then [] else cfg.tokenize cfg.buckJavaargs) ++
      (if cfg.buckJavaargsLocal = "" then [] else cfg.tokenize cfg.buckJavaargsLocal) ++
      cfg.extraJavaArgs ++
      (if cfg.extraJavaArgsEnvVar = "" then [] else cfg.tokenize cfg.extraJavaArgsEnvVar) := by
  simp [get_java_args, javaArgsBuiltin, List.append_assoc]
